import Mathlib

/-!
Shallow embedding of `pyvista/plotting/affine_widget.py` (class `AffineWidget3D`
and its module-level geometry helpers), together with theorems checking the
natural-language specification of the widget against this embedding.

Modelling conventions:
* numpy float arrays are modelled over `ℝ`; a 3-vector is `Fin 3 → ℝ` and the
  4x4 homogeneous matrix is `Matrix (Fin 4) (Fin 4) ℝ`.
* The camera unprojection pipeline (`vtkCoordinate` display conversion and the
  projection/modelview matrix inversion) lives in VTK / numpy linear algebra
  outside this module; a mouse-move event is therefore modelled as carrying the
  two pre-intersection world points those pipelines produce, plus the camera
  view direction and the picker result.
* Python code that would raise an exception mid-handler is modelled with
  `Option` (`none` = the handler raises).
-/

namespace AffineWidget

abbrev Vec3 := Fin 3 → ℝ

abbrev Mat4 := Matrix (Fin 4) (Fin 4) ℝ

/-- A colour, as an RGB triple (matching pyvista `Color` float triples). -/
abbrev Color := Fin 3 → ℝ

/-- Source line 10: `DARK_YELLOW = (0.9647058823529412, 0.7450980392156863, 0)`. -/
noncomputable def DARK_YELLOW : Color := ![0.9647058823529412, 0.7450980392156863, 0]

/-- Source line 11: `INDEX_MAPPER = {0: 1, 1: 2, 2: 0}`. -/
def INDEX_MAPPER : Fin 3 → Fin 3 := ![1, 2, 0]

/-- Source lines 12-16: `AXES`, the three unit axis vectors. -/
noncomputable def AXES (i : Fin 3) : Vec3 := fun j => if j = i then 1 else 0

/-- `np.dot` on 3-vectors. -/
noncomputable def dot3 (a b : Vec3) : ℝ := a 0 * b 0 + a 1 * b 1 + a 2 * b 2

/-- `np.linalg.norm` on 3-vectors. -/
noncomputable def norm3 (a : Vec3) : ℝ := Real.sqrt (dot3 a a)

/-- `np.cross` on 3-vectors. -/
noncomputable def cross3 (a b : Vec3) : Vec3 :=
  ![a 1 * b 2 - a 2 * b 1, a 2 * b 0 - a 0 * b 2, a 0 * b 1 - a 1 * b 0]

/-- `np.clip(x, -1.0, 1.0)` = `min(max(x, -1), 1)`. -/
noncomputable def clip1 (x : ℝ) : ℝ := min (max x (-1)) 1

/-- Source lines 27-43, `get_angle(v1, v2)`:
`theta = (np.arccos(np.clip(np.dot(v1, v2), -1.0, 1.0))) * (180 / np.pi)`.
Note the source does NOT normalize its inputs. -/
noncomputable def get_angle (v1 v2 : Vec3) : ℝ :=
  Real.arccos (clip1 (dot3 v1 v2)) * (180 / Real.pi)

/-- Source lines 46-66, `ray_plane_intersection(start_point, direction,
plane_point, normal)`:
`t_value = np.dot(normal, (plane_point - start_point)) / np.dot(normal, direction)`;
returns `start_point + t_value * direction`. There is no guard on the
denominator. -/
noncomputable def ray_plane_intersection
    (start_point direction plane_point normal : Vec3) : Vec3 :=
  let t_value :=
    dot3 normal (fun j => plane_point j - start_point j) / dot3 normal direction
  fun j => start_point j + t_value * direction j

/-- Spec-side definition (spec 4.1): `angleBetweenDegrees(v1, v2)` as the spec
words it, i.e. with the inputs normalized before the dot product. Used only to
compare with the source's `get_angle`. -/
noncomputable def angleBetweenDegreesSpec (v1 v2 : Vec3) : ℝ :=
  Real.arccos (clip1 (dot3 (fun j => v1 j / norm3 v1) (fun j => v2 j / norm3 v2)))
    * (180 / Real.pi)

end AffineWidget

namespace AffineWidget

/-! ### Constructor validation (source lines 129-181) -/

/-- A Python value passed as the `callback` argument, abstracted to the two
properties the constructor's checks can observe: its truthiness (`if callback:`)
and whether `callable(callback)` holds. The default `callback=None` is the
falsy, non-callable value. -/
structure CallbackValue where
  truthy : Bool
  is_callable : Bool
deriving DecidableEq

/-- The only exception the constructor's validation code actually raises. -/
inductive ConstructError
  | typeErrorCallback
deriving DecidableEq

/-- Python tuple comparison `vtk_version_info < (9, 2)` (lexicographic on the
first two components, as in source line 143). -/
def versionBelow92 (v : ℕ × ℕ) : Bool :=
  v.1 < 9 || (v.1 == 9 && v.2 < 2)

/-- Outcome of running the validation in `AffineWidget3D.__init__`. -/
structure InitTrace where
  /-- Whether the branch `if pv.vtk_version_info < (9, 2):` was taken; the
  source (line 144) then evaluates `VTKVersionError(...)` as a bare expression
  statement, creating the exception object without a `raise`. -/
  version_error_created : Bool
  /-- The exception the constructor raises, if any (`none` = construction
  proceeds past validation). -/
  raised : Option ConstructError
deriving DecidableEq

/-- Source lines 142-176: the validation performed by `AffineWidget3D.__init__`.
Line 143-144 tests the VTK version and, when it is below (9, 2), constructs a
`VTKVersionError` instance that is never raised; lines 173-175 run
`if callback:` and then `if not callable(callback): raise TypeError(...)`. -/
def affineWidgetInit (vtk_version_info : ℕ × ℕ) (callback : CallbackValue) :
    InitTrace :=
  let version_error_created := versionBelow92 vtk_version_info
  if callback.truthy && !callback.is_callable then
    { version_error_created, raised := some ConstructError.typeErrorCallback }
  else
    { version_error_created, raised := none }

/-! ### Observer lifecycle (source lines 146-152, 398-420) -/

/-- The interactor's observer registry: per mouse event kind, the list of
registered observer ids, plus the id `add_observer` hands out next. VTK
observer ids start at 1, so 0 is never a live id. -/
structure ObserverSys where
  next_id : ℕ
  move_obs : List ℕ
  press_obs : List ℕ
  release_obs : List ℕ
deriving DecidableEq

/-- `iren.remove_observer(id)`: deregisters the observer with that id. -/
def removeObserver (sys : ObserverSys) (i : ℕ) : ObserverSys :=
  { sys with
    move_obs := sys.move_obs.filter (fun j => j != i)
    press_obs := sys.press_obs.filter (fun j => j != i)
    release_obs := sys.release_obs.filter (fun j => j != i) }

/-- The observer-related attributes of a widget and of its plotter. The widget
attributes are those set to `None` in `__init__` (source lines 150-152); the
`pl_*` fields are the attributes `enable` creates on the plotter object
(source lines 405-410 assign to `self._pl._left_press_observer` and
`self._pl._left_release_observer`, not to the widget's own attributes). -/
structure LifecycleState where
  sys : ObserverSys
  mouse_move_observer : Option ℕ
  left_press_observer : Option ℕ
  left_release_observer : Option ℕ
  pl_left_press_observer : Option ℕ
  pl_left_release_observer : Option ℕ
deriving DecidableEq

/-- The observer state right after `__init__` (source lines 150-152): all the
widget's observer attributes are `None` and no observer is registered. -/
def initLifecycle : LifecycleState :=
  { sys := { next_id := 1, move_obs := [], press_obs := [], release_obs := [] }
    mouse_move_observer := none
    left_press_observer := none
    left_release_observer := none
    pl_left_press_observer := none
    pl_left_release_observer := none }

/-- Source lines 398-410, `enable()`: adds a move observer, storing its id in
`self._mouse_move_observer`, then adds press and release observers, storing
their ids in `self._pl._left_press_observer` and
`self._pl._left_release_observer` (attributes of the plotter, not of the
widget). -/
def enable (st : LifecycleState) : LifecycleState :=
  let s0 := st.sys
  let mid := s0.next_id
  let s1 := { s0 with next_id := s0.next_id + 1, move_obs := s0.move_obs ++ [mid] }
  let pid := s1.next_id
  let s2 := { s1 with next_id := s1.next_id + 1, press_obs := s1.press_obs ++ [pid] }
  let rid := s2.next_id
  let s3 := { s2 with next_id := s2.next_id + 1, release_obs := s2.release_obs ++ [rid] }
  { st with
    sys := s3
    mouse_move_observer := some mid
    pl_left_press_observer := some pid
    pl_left_release_observer := some rid }

/-- Python truthiness of an observer-id attribute (`if self._mouse_move_observer:`):
`None` and the integer 0 are falsy. -/
def truthyId : Option ℕ → Bool
  | none => false
  | some i => i != 0

/-- Source lines 412-420, `disable()`: removes the observer stored in each of
the widget's own attributes `_mouse_move_observer`, `_left_press_observer`,
`_left_release_observer`, when that attribute is truthy. -/
def disable (st : LifecycleState) : LifecycleState :=
  let st1 :=
    if truthyId st.mouse_move_observer then
      { st with sys := removeObserver st.sys (st.mouse_move_observer.getD 0) }
    else st
  let st2 :=
    if truthyId st1.left_press_observer then
      { st1 with sys := removeObserver st1.sys (st1.left_press_observer.getD 0) }
    else st1
  if truthyId st2.left_release_observer then
    { st2 with sys := removeObserver st2.sys (st2.left_release_observer.getD 0) }
  else st2

/-! ### Interaction state machine (source lines 221-367) -/

/-- One of the six pickable gizmo actors: `self._arrows[i]` or
`self._circles[i]`. -/
inductive Handle
  | arrow (i : Fin 3)
  | circle (i : Fin 3)
deriving DecidableEq

/-- The result of `picker.GetActor()` at the cursor: no actor, one of the six
widget handles, or some other actor of the scene (e.g. the main mesh). -/
inductive PickResult
  | nothing
  | handle (h : Handle)
  | other
deriving DecidableEq

/-- The mutable widget / target-actor state the mouse handlers read and write.
`user_matrix` is the target actor's `user_matrix`; the remaining fields are the
widget attributes of the same names (without the leading underscore).
`axes_colors` is the immutable base palette from `__init__`; `arrow_colors` and
`circle_colors` are the current `prop.color` of the six handle actors. -/
structure WidgetState where
  selected_actor : Option Handle
  pressing_down : Bool
  user_matrix : Mat4
  cached_matrix : Mat4
  init_position : Vec3
  origin : Vec3
  axes_colors : Fin 3 → Color
  arrow_colors : Fin 3 → Color
  circle_colors : Fin 3 → Color

/-- The data a mouse-move (or press) event provides to the handlers:
the picker result at the cursor, the world point computed by the
display-coordinate conversion of `_get_world_coord_rot` (source lines 229-234,
before the plane intersection), the scaled world point computed by the
projection-matrix unprojection of `_get_world_coord_trans` (source lines
249-268, before the plane intersection), and the camera view direction. -/
structure MoveEvent where
  picked : PickResult
  disp_point : Vec3
  proj_point : Vec3
  view_vec : Vec3

/-- Source lines 221-239, `_get_world_coord_rot`, for a selected circle of
index `i`: the display-derived world point is intersected with the plane
through `self._origin` with normal `AXES[i]` along the camera direction. -/
noncomputable def get_world_coord_rot (s : WidgetState) (ev : MoveEvent) (i : Fin 3) :
    Vec3 :=
  ray_plane_intersection ev.disp_point ev.view_vec s.origin (AXES i)

/-- Source lines 241-275, `_get_world_coord_trans`, for a selected arrow of
index `i`: the unprojected point is intersected with the plane through
`self._origin` whose normal is `AXES[INDEX_MAPPER[i]]` (the next axis in cyclic
order), along the camera direction. -/
noncomputable def get_world_coord_trans (s : WidgetState) (ev : MoveEvent) (i : Fin 3) :
    Vec3 :=
  ray_plane_intersection ev.proj_point ev.view_vec s.origin (AXES (INDEX_MAPPER i))

/-- The 4x4 matrix of `vtkTransform.Translate(o)` as a single transform. -/
noncomputable def translation4 (o : Vec3) : Mat4 :=
  !![1, 0, 0, o 0; 0, 1, 0, o 1; 0, 0, 1, o 2; 0, 0, 0, 1]

/-- The 4x4 matrix of `vtkTransform.RotateX(angle)` (angle in degrees). -/
noncomputable def rotX4 (angle : ℝ) : Mat4 :=
  let θ := angle * Real.pi / 180
  !![1, 0, 0, 0;
     0, Real.cos θ, -Real.sin θ, 0;
     0, Real.sin θ, Real.cos θ, 0;
     0, 0, 0, 1]

/-- The 4x4 matrix of `vtkTransform.RotateY(angle)` (angle in degrees). -/
noncomputable def rotY4 (angle : ℝ) : Mat4 :=
  let θ := angle * Real.pi / 180
  !![Real.cos θ, 0, Real.sin θ, 0;
     0, 1, 0, 0;
     -Real.sin θ, 0, Real.cos θ, 0;
     0, 0, 0, 1]

/-- The 4x4 matrix of `vtkTransform.RotateZ(angle)` (angle in degrees). -/
noncomputable def rotZ4 (angle : ℝ) : Mat4 :=
  let θ := angle * Real.pi / 180
  !![Real.cos θ, -Real.sin θ, 0, 0;
     Real.sin θ, Real.cos θ, 0, 0;
     0, 0, 1, 0;
     0, 0, 0, 1]

/-- A `vtkTransform` in its default PreMultiply mode: each call concatenates
the new transformation on the right of the current matrix. -/
noncomputable def vtkConcat (current new_mat : Mat4) : Mat4 := current * new_mat

/-- Source lines 307-317: the matrix built by
`trans = vtkTransform(); trans.Translate(origin); trans.RotateX/Y/Z(angle);
trans.Translate(-origin)`, starting from the identity. -/
noncomputable def vtkDragRotation (i : Fin 3) (angle : ℝ) (origin : Vec3) : Mat4 :=
  let t0 : Mat4 := 1
  let t1 := vtkConcat t0 (translation4 origin)
  let t2 :=
    if i = 0 then vtkConcat t1 (rotX4 angle)
    else if i = 1 then vtkConcat t1 (rotY4 angle)
    else vtkConcat t1 (rotZ4 angle)
  vtkConcat t2 (translation4 (fun j => -(origin j)))

/-- Source lines 322-330 of `_move_callback` (the `elif` branch reached when
not pressing): when an actor is selected and it is not the picked actor,
restore its colour to the base axis colour and deselect it. -/
noncomputable def hover_deselect (s : WidgetState) (ev : MoveEvent) : WidgetState :=
  match s.selected_actor with
  | some h =>
      if ev.picked = PickResult.handle h then s
      else
        match h with
        | Handle.arrow index =>
            { s with
              selected_actor := none
              arrow_colors :=
                Function.update s.arrow_colors index (s.axes_colors index) }
        | Handle.circle index =>
            { s with
              selected_actor := none
              circle_colors :=
                Function.update s.circle_colors index (s.axes_colors index) }
  | none => s

/-- Source lines 332-343 of `_move_callback` (run unconditionally): when an
actor is picked and no actor is selected, colour the picked handle with
`DARK_YELLOW` and select it; a picked non-handle actor changes nothing. -/
noncomputable def hover_highlight (s1 : WidgetState) (ev : MoveEvent) : WidgetState :=
  if s1.selected_actor = none then
    match ev.picked with
    | PickResult.handle (Handle.arrow index) =>
        { s1 with
          selected_actor := some (Handle.arrow index)
          arrow_colors := Function.update s1.arrow_colors index DARK_YELLOW }
    | PickResult.handle (Handle.circle index) =>
        { s1 with
          selected_actor := some (Handle.circle index)
          circle_colors := Function.update s1.circle_colors index DARK_YELLOW }
    | _ => s1
  else s1

/-- Source lines 277-344, `_move_callback`. Returns `none` when the Python
handler would raise: while `_pressing_down` holds with no selected actor, the
local `matrix` is never bound and line 320 raises `UnboundLocalError`. -/
noncomputable def move_callback (s : WidgetState) (ev : MoveEvent) :
    Option WidgetState :=
  let afterDrag : Option WidgetState :=
    if s.pressing_down then
      match s.selected_actor with
      | some (Handle.arrow index) =>
          let current_pos := get_world_coord_trans s ev index
          let diff := fun j => current_pos j - s.init_position j
          let matrix := fun r c =>
            if r = Fin.castSucc index ∧ c = (3 : Fin 4) then
              s.cached_matrix r c + diff index
            else s.cached_matrix r c
          some { s with user_matrix := matrix }
      | some (Handle.circle index) =>
          let current_pos := get_world_coord_rot s ev index
          let vec_current0 := fun j => current_pos j - s.origin j
          let vec_init0 := fun j => s.init_position j - s.origin j
          let normal := AXES index
          let vec_current1 :=
            fun j => vec_current0 j - dot3 vec_current0 normal * normal j
          let vec_init1 := fun j => vec_init0 j - dot3 vec_init0 normal * normal j
          let vec_current := fun j => vec_current1 j / norm3 vec_current1
          let vec_init := fun j => vec_init1 j / norm3 vec_init1
          let angle0 := get_angle vec_init vec_current
          let angle :=
            if cross3 vec_init vec_current index < 0 then -angle0 else angle0
          let rot_matrix := vtkDragRotation index angle s.origin
          some { s with user_matrix := rot_matrix * s.cached_matrix }
      | none => none
    else some (hover_deselect s ev)
  afterDrag.bind fun s1 => some (hover_highlight s1 ev)

/-- Source lines 346-354, `_press_callback`: when a handle is selected, set
`_pressing_down` and record the initial pick point, using the rotation-style
world coordinate for circles and the translation-style one otherwise. -/
noncomputable def press_callback (s : WidgetState) (ev : MoveEvent) : WidgetState :=
  match s.selected_actor with
  | some (Handle.circle i) =>
      { s with pressing_down := true, init_position := get_world_coord_rot s ev i }
  | some (Handle.arrow i) =>
      { s with pressing_down := true, init_position := get_world_coord_trans s ev i }
  | none => s

/-- Source lines 356-362, `_release_callback`: clear `_pressing_down` and
resync the cached matrix from the target's live matrix. (The user callback
invocation through `try_callback` has no effect on widget state.) -/
def release_callback (s : WidgetState) : WidgetState :=
  { s with pressing_down := false, cached_matrix := s.user_matrix }

/-- Source lines 364-367, `_reset`: set both the target's matrix and the
cached matrix to `np.eye(4)`. No other attribute is touched. -/
def reset (s : WidgetState) : WidgetState :=
  { s with user_matrix := 1, cached_matrix := 1 }

/-- Processing a list of mouse-move events in order. -/
noncomputable def processMoves (s : WidgetState) : List MoveEvent → Option WidgetState
  | [] => some s
  | ev :: evs => (move_callback s ev).bind fun s1 => processMoves s1 evs

/-! ### Spec-side decomposition of the rotation-drag computation -/

/-- Projection of a vector onto the plane through the origin with unit normal
`n` (the spec's "subtract the component along the normal"). -/
noncomputable def projectToPlane (v n : Vec3) : Vec3 := fun j => v j - dot3 v n * n j

/-- Division of a vector by its Euclidean norm. -/
noncomputable def unitize (v : Vec3) : Vec3 := fun j => v j / norm3 v

/-- The signed rotation angle a move event produces during a drag on the
rotation ring of axis `i`: both the initial and the current world point,
relative to the origin, are projected onto the plane with normal axis `i`,
normalized, fed to `get_angle`, and the result is negated when component `i`
of their cross product is negative. -/
noncomputable def rotationDragAngle (s : WidgetState) (ev : MoveEvent) (i : Fin 3) :
    ℝ :=
  let wp := get_world_coord_rot s ev i
  let vc := unitize (projectToPlane (fun j => wp j - s.origin j) (AXES i))
  let vi := unitize (projectToPlane (fun j => s.init_position j - s.origin j) (AXES i))
  if cross3 vi vc i < 0 then -(get_angle vi vc) else get_angle vi vc

/-- The transform "translate by `-origin`, rotate by `angle` about axis `i`,
translate back by `+origin`", as a single matrix acting on column points. -/
noncomputable def rotationAboutAxisAtOrigin (i : Fin 3) (angle : ℝ) (o : Vec3) :
    Mat4 :=
  translation4 o *
    (if i = 0 then rotX4 angle else if i = 1 then rotY4 angle else rotZ4 angle) *
    translation4 fun j => -(o j)

/-! ### Reduction lemmas for the move handler -/

theorem vtkDragRotation_eq (i : Fin 3) (angle : ℝ) (o : Vec3) :
    vtkDragRotation i angle o = rotationAboutAxisAtOrigin i angle o := by
  simp [vtkDragRotation, vtkConcat, rotationAboutAxisAtOrigin, one_mul, ite_mul]

theorem hover_highlight_of_selected (s1 : WidgetState) (ev : MoveEvent)
    (h : s1.selected_actor ≠ none) : hover_highlight s1 ev = s1 := by
  unfold hover_highlight
  rw [if_neg h]

theorem move_callback_arrow (s : WidgetState) (ev : MoveEvent) (i : Fin 3)
    (hp : s.pressing_down = true)
    (hs : s.selected_actor = some (Handle.arrow i)) :
    move_callback s ev = some
      { s with user_matrix := fun r c =>
          if r = Fin.castSucc i ∧ c = (3 : Fin 4) then
            s.cached_matrix r c + (get_world_coord_trans s ev i i - s.init_position i)
          else s.cached_matrix r c } := by
  simp only [move_callback, hp, hs, if_true, Option.some_bind]
  rw [hover_highlight_of_selected _ ev (by simp)]

theorem move_callback_circle (s : WidgetState) (ev : MoveEvent) (i : Fin 3)
    (hp : s.pressing_down = true)
    (hs : s.selected_actor = some (Handle.circle i)) :
    move_callback s ev = some
      { s with user_matrix :=
          vtkDragRotation i (rotationDragAngle s ev i) s.origin * s.cached_matrix } := by
  simp only [move_callback, hp, hs, if_true, Option.some_bind]
  rw [hover_highlight_of_selected _ ev (by simp)]
  simp only [rotationDragAngle, projectToPlane, unitize]
  rfl

theorem move_callback_none_pressing (s : WidgetState) (ev : MoveEvent)
    (hp : s.pressing_down = true) (hs : s.selected_actor = none) :
    move_callback s ev = none := by
  simp [move_callback, hp, hs]

theorem hover_deselect_fields (s : WidgetState) (ev : MoveEvent) :
    (hover_deselect s ev).user_matrix = s.user_matrix ∧
    (hover_deselect s ev).cached_matrix = s.cached_matrix ∧
    (hover_deselect s ev).pressing_down = s.pressing_down ∧
    (hover_deselect s ev).init_position = s.init_position ∧
    (hover_deselect s ev).origin = s.origin ∧
    (hover_deselect s ev).axes_colors = s.axes_colors := by
  unfold hover_deselect
  cases s.selected_actor with
  | none => exact ⟨rfl, rfl, rfl, rfl, rfl, rfl⟩
  | some h =>
      by_cases hpick : ev.picked = PickResult.handle h
      · simp [hpick]
      · cases h <;> simp [if_neg hpick]

theorem hover_highlight_fields (s1 : WidgetState) (ev : MoveEvent) :
    (hover_highlight s1 ev).user_matrix = s1.user_matrix ∧
    (hover_highlight s1 ev).cached_matrix = s1.cached_matrix ∧
    (hover_highlight s1 ev).pressing_down = s1.pressing_down ∧
    (hover_highlight s1 ev).init_position = s1.init_position ∧
    (hover_highlight s1 ev).origin = s1.origin ∧
    (hover_highlight s1 ev).axes_colors = s1.axes_colors := by
  unfold hover_highlight
  by_cases hsel : s1.selected_actor = none
  · cases hpick : ev.picked with
    | nothing => simp [if_pos hsel]
    | other => simp [if_pos hsel]
    | handle h => cases h <;> simp [if_pos hsel]
  · simp [if_neg hsel]

theorem move_not_pressing (s : WidgetState) (ev : MoveEvent)
    (hp : s.pressing_down = false) :
    move_callback s ev = some (hover_highlight (hover_deselect s ev) ev) := by
  simp [move_callback, hp]

theorem move_not_pressing_fields (s : WidgetState) (ev : MoveEvent)
    (hp : s.pressing_down = false) :
    ∃ s', move_callback s ev = some s' ∧
      s'.user_matrix = s.user_matrix ∧
      s'.cached_matrix = s.cached_matrix ∧
      s'.pressing_down = false ∧
      s'.init_position = s.init_position ∧
      s'.origin = s.origin ∧
      s'.axes_colors = s.axes_colors := by
  obtain ⟨d1, d2, d3, d4, d5, d6⟩ := hover_deselect_fields s ev
  obtain ⟨g1, g2, g3, g4, g5, g6⟩ := hover_highlight_fields (hover_deselect s ev) ev
  exact ⟨hover_highlight (hover_deselect s ev) ev, move_not_pressing s ev hp,
    g1.trans d1, g2.trans d2, (g3.trans d3).trans hp, g4.trans d4,
    g5.trans d5, g6.trans d6⟩

/-! ### Concrete states and events for witnesses and counterexamples -/

/-- A widget state with identity matrices, origin at zero and stock colours. -/
noncomputable def baseState (sel : Option Handle) (press : Bool) : WidgetState :=
  { selected_actor := sel
    pressing_down := press
    user_matrix := 1
    cached_matrix := 1
    init_position := ![0, 0, 0]
    origin := ![0, 0, 0]
    axes_colors := fun i => AXES i
    arrow_colors := fun i => AXES i
    circle_colors := fun i => AXES i }

/-- A state mid-drag on the X translation arrow. -/
noncomputable def draggingState : WidgetState := baseState (some (Handle.arrow 0)) true

/-- A state mid-drag on the Z rotation ring. -/
noncomputable def rotDragState : WidgetState := baseState (some (Handle.circle 2)) true

/-- A state with no drag and no selection. -/
noncomputable def hoverState : WidgetState := baseState none false

/-- A generic move event with a well-conditioned view ray for the X arrow. -/
noncomputable def dragEventA : MoveEvent :=
  { picked := PickResult.nothing
    disp_point := ![1, 0, 3]
    proj_point := ![2, 3, 4]
    view_vec := ![0, 1, 0] }

/-- A move event whose view direction lies inside the projection plane of the
X arrow (normal `AXES 1`), so the ray-plane denominator vanishes. -/
noncomputable def degenerateEvent : MoveEvent :=
  { picked := PickResult.nothing
    disp_point := ![0, 0, 0]
    proj_point := ![5, 0, 0]
    view_vec := ![0, 0, 1] }

/-! ### Claims -/

/-- C1: during a drag on the translation arrow for axis `i`, a mouse-move event
sets the target's live matrix to a copy of the cached matrix in which only
translation component `i` (entry `(i, 3)`) is changed, by adding component `i`
of `currentWorldPoint - initialWorldPoint`; the world point is obtained by
intersecting against the plane through the origin whose normal is the next axis
in cyclic order (`INDEX_MAPPER`); every other matrix entry equals the cached
matrix's entry and the rest of the widget state is unchanged. -/
theorem c1_translation_drag (s : WidgetState) (ev : MoveEvent) (i : Fin 3)
    (hp : s.pressing_down = true)
    (hs : s.selected_actor = some (Handle.arrow i)) :
    ∃ s', move_callback s ev = some s' ∧
      s'.user_matrix (Fin.castSucc i) 3 =
        s.cached_matrix (Fin.castSucc i) 3 +
          (ray_plane_intersection ev.proj_point ev.view_vec s.origin
              (AXES (INDEX_MAPPER i)) i
            - s.init_position i) ∧
      (∀ r c, ¬(r = Fin.castSucc i ∧ c = (3 : Fin 4)) →
        s'.user_matrix r c = s.cached_matrix r c) ∧
      s'.cached_matrix = s.cached_matrix ∧
      s'.selected_actor = s.selected_actor ∧
      s'.pressing_down = s.pressing_down ∧
      s'.init_position = s.init_position ∧
      s'.origin = s.origin := by
  refine ⟨_, move_callback_arrow s ev i hp hs, ?_, ?_, rfl, rfl, rfl, rfl, rfl⟩
  · simp [get_world_coord_trans]
  · intro r c hrc
    simp [if_neg hrc]

/-- Witness for C1: the hypotheses of `c1_translation_drag` hold at the
concrete dragging state `draggingState` and event `dragEventA`. -/
theorem c1_translation_drag_witness :
    draggingState.pressing_down = true ∧
    draggingState.selected_actor = some (Handle.arrow 0) ∧
    ∃ s', move_callback draggingState dragEventA = some s' ∧
      s'.cached_matrix = draggingState.cached_matrix :=
  ⟨rfl, rfl, by
    obtain ⟨s', h1, _, _, h4, _⟩ := c1_translation_drag draggingState dragEventA 0 rfl rfl
    exact ⟨s', h1, h4⟩⟩

/-- C2: during a drag on the rotation ring for axis `i`, a mouse-move event
projects the initial and current world points (taken relative to the origin,
the current one obtained by intersecting with the plane through the origin with
normal axis `i`) onto that plane, normalizes them, computes the angle between
them with `get_angle`, negates it when component `i` of
`cross(initialVec, currentVec)` is negative, and sets the target's live matrix
to `R * cachedMatrix`, where `R` translates by `-origin`, rotates by the signed
angle about axis `i` and translates back by `+origin`; the rest of the widget
state is unchanged. -/
theorem c2_rotation_drag (s : WidgetState) (ev : MoveEvent) (i : Fin 3)
    (hp : s.pressing_down = true)
    (hs : s.selected_actor = some (Handle.circle i)) :
    ∃ s', move_callback s ev = some s' ∧
      s'.user_matrix =
        rotationAboutAxisAtOrigin i (rotationDragAngle s ev i) s.origin *
          s.cached_matrix ∧
      get_world_coord_rot s ev i =
        ray_plane_intersection ev.disp_point ev.view_vec s.origin (AXES i) ∧
      s'.cached_matrix = s.cached_matrix ∧
      s'.selected_actor = s.selected_actor ∧
      s'.pressing_down = s.pressing_down ∧
      s'.init_position = s.init_position ∧
      s'.origin = s.origin := by
  refine ⟨_, move_callback_circle s ev i hp hs, ?_, rfl, rfl, rfl, rfl, rfl, rfl⟩
  simp [vtkDragRotation_eq]

/-- Witness for C2: the hypotheses of `c2_rotation_drag` hold at the concrete
rotation-drag state `rotDragState` and event `dragEventA`. -/
theorem c2_rotation_drag_witness :
    rotDragState.pressing_down = true ∧
    rotDragState.selected_actor = some (Handle.circle 2) ∧
    ∃ s', move_callback rotDragState dragEventA = some s' ∧
      s'.cached_matrix = rotDragState.cached_matrix :=
  ⟨rfl, rfl, by
    obtain ⟨s', h1, _, _, h4, _⟩ := c2_rotation_drag rotDragState dragEventA 2 rfl rfl
    exact ⟨s', h1, h4⟩⟩

/-- C3 counterexample: `get_angle` does not normalize its inputs, so on the
non-zero vector `v = (1/2, 0, 0)` it returns `arccos(1/4)·180/π ≠ 0`, while
the claimed formula (with normalization) gives 0. -/
theorem c3_get_angle_counterexample :
    get_angle ![(1:ℝ)/2, 0, 0] ![(1:ℝ)/2, 0, 0] ≠ 0 ∧
    angleBetweenDegreesSpec ![(1:ℝ)/2, 0, 0] ![(1:ℝ)/2, 0, 0] = 0 := by
  have hdot : dot3 ![(1:ℝ)/2, 0, 0] ![(1:ℝ)/2, 0, 0] = 1 / 4 := by
    norm_num [dot3]
  constructor
  · have hc : clip1 ((1:ℝ)/4) = 1/4 := by
      unfold clip1
      rw [max_eq_left (by norm_num : (-1:ℝ) ≤ 1/4),
        min_eq_left (by norm_num : (1:ℝ)/4 ≤ 1)]
    have h1 : 0 < Real.arccos (clip1 ((1:ℝ)/4)) := by
      rw [hc]
      exact Real.arccos_pos.2 (by norm_num)
    have h2 : 0 < 180 / Real.pi := div_pos (by norm_num) Real.pi_pos
    unfold get_angle
    rw [hdot]
    exact (mul_pos h1 h2).ne'
  · have hn : norm3 ![(1:ℝ)/2, 0, 0] = 1/2 := by
      unfold norm3
      rw [hdot, show (1:ℝ)/4 = (1/2)^2 by norm_num]
      exact Real.sqrt_sq (by norm_num)
    unfold angleBetweenDegreesSpec
    rw [hn]
    have hd1 : dot3 (fun j => (![(1:ℝ)/2, 0, 0]) j / (1/2))
        (fun j => (![(1:ℝ)/2, 0, 0]) j / (1/2)) = 1 := by
      norm_num [dot3]
    rw [hd1]
    have hc1 : clip1 1 = 1 := by
      unfold clip1
      rw [max_eq_left (by norm_num : (-1:ℝ) ≤ 1), min_self]
    rw [hc1, Real.arccos_one, zero_mul]

/-- C3 (amended): `get_angle v1 v2` is `arccos(clamp(dot(v1, v2), -1, 1))·180/π`
with no normalization of the inputs; consequently the claimed identities hold
for vectors whose self-dot is at least 1 (in particular unit vectors):
`get_angle v v = 0`, `get_angle v (-v) = 180`, and
`get_angle (1,0,0) (0,1,0) = 90`. -/
theorem c3_get_angle_formula (v : Vec3) (h : 1 ≤ dot3 v v) :
    (∀ w1 w2 : Vec3, get_angle w1 w2 =
        Real.arccos (min (max (dot3 w1 w2) (-1)) 1) * (180 / Real.pi)) ∧
    get_angle v v = 0 ∧
    get_angle v (fun j => -(v j)) = 180 ∧
    get_angle (AXES 0) (AXES 1) = 90 := by
  refine ⟨fun w1 w2 => rfl, ?_, ?_, ?_⟩
  · unfold get_angle clip1
    rw [max_eq_left (le_trans (by norm_num) h),
      min_eq_right h, Real.arccos_one, zero_mul]
  · have hneg : dot3 v (fun j => -(v j)) = -(dot3 v v) := by
      unfold dot3
      ring
    unfold get_angle clip1
    rw [hneg, max_eq_right (neg_le_neg (le_trans (by norm_num) h)),
      min_eq_left (by norm_num), Real.arccos_neg_one]
    field_simp
  · have hd : dot3 (AXES 0) (AXES 1) = 0 := by
      unfold dot3 AXES
      norm_num [Fin.ext_iff]
    unfold get_angle clip1
    rw [hd, max_eq_left (by norm_num), min_eq_left (by norm_num),
      Real.arccos_zero]
    field_simp
    ring

/-- Witness for C3 (amended) at the unit vector `(1, 0, 0)`. -/
theorem c3_get_angle_formula_witness :
    1 ≤ dot3 ![(1:ℝ), 0, 0] ![(1:ℝ), 0, 0] ∧
    get_angle ![(1:ℝ), 0, 0] ![(1:ℝ), 0, 0] = 0 :=
  have h : 1 ≤ dot3 ![(1:ℝ), 0, 0] ![(1:ℝ), 0, 0] := by norm_num [dot3]
  ⟨h, (c3_get_angle_formula ![(1:ℝ), 0, 0] h).2.1⟩

/-- C4 (code evaluated at the failing input): starting from a fresh widget,
after `enable(); disable(); enable()` the interactor holds TWO press observers
and TWO release observers (but one move observer), because `enable` stores the
press/release observer ids on the plotter while `disable` reads the widget's
own attributes, which are still `None`; and `enable(); enable()` registers a
second move observer. This contradicts the claim that exactly one set of
observers is active. -/
theorem c4_observers_leak :
    ((enable (disable (enable initLifecycle))).sys.move_obs.length = 1 ∧
      (enable (disable (enable initLifecycle))).sys.press_obs.length = 2 ∧
      (enable (disable (enable initLifecycle))).sys.release_obs.length = 2) ∧
    ((enable (enable initLifecycle)).sys.move_obs.length = 2 ∧
      (enable (enable initLifecycle)).sys.press_obs.length = 2 ∧
      (enable (enable initLifecycle)).sys.release_obs.length = 2) := by
  decide

/-- C5 counterexample: `_reset` does not clear `_pressing_down`, so a widget
that is mid-drag is still in the dragging state after `reset()`, contradicting
the claim that the drag state is cleared regardless of the prior state. -/
theorem c5_reset_keeps_drag_flag :
    draggingState.pressing_down = true ∧
    (reset draggingState).pressing_down = true :=
  ⟨rfl, rfl⟩

/-- C5 (amended): after `reset()` the cached matrix and the target's matrix
both equal the 4x4 identity, while `_pressing_down`, the selection and the
initial pick point are left exactly as they were (an in-progress drag is NOT
discarded). -/
theorem c5_reset_matrices (s : WidgetState) :
    (reset s).user_matrix = 1 ∧
    (reset s).cached_matrix = 1 ∧
    (reset s).pressing_down = s.pressing_down ∧
    (reset s).selected_actor = s.selected_actor ∧
    (reset s).init_position = s.init_position :=
  ⟨rfl, rfl, rfl, rfl, rfl⟩

/-- Witness for C5 (amended) at a concrete mid-drag state. -/
theorem c5_reset_matrices_witness :
    (reset draggingState).user_matrix = 1 ∧ (reset draggingState).cached_matrix = 1 :=
  ⟨(c5_reset_matrices draggingState).1, (c5_reset_matrices draggingState).2.1⟩

/-- C6 (code evaluated at the failing input): with `vtk_version_info = (9, 1)`
the constructor takes the version branch — creating the `VTKVersionError`
object — but raises nothing, so construction completes; the claim (and the
class docstring) say construction must fail for VTK below 9.2. -/
theorem c6_version_error_not_raised :
    (affineWidgetInit (9, 1) ⟨false, false⟩).version_error_created = true ∧
    (affineWidgetInit (9, 1) ⟨false, false⟩).raised = none := by
  decide

/-- C7 counterexample: a falsy non-callable `callback` (e.g. the integer `0`)
is NOT rejected — `if callback:` skips the `callable` check — so construction
succeeds for a non-callable value, contradicting the claim that every
non-callable callback raises. -/
theorem c7_falsy_noncallable_accepted :
    (⟨false, false⟩ : CallbackValue).is_callable = false ∧
    (affineWidgetInit (9, 2) ⟨false, false⟩).raised = none := by
  decide

/-- C7 (amended): the constructor raises `TypeError` exactly for truthy
non-callable callback values; callable values and falsy values (including the
omitted-callback default `None`) pass validation and construction proceeds. -/
theorem c7_callback_validation (v : ℕ × ℕ) (cb : CallbackValue) :
    (affineWidgetInit v cb).raised = some ConstructError.typeErrorCallback ↔
      (cb.truthy && !cb.is_callable) = true := by
  unfold affineWidgetInit
  cases h : cb.truthy && !cb.is_callable <;> simp [h]

/-- Witness for C7 (amended) at a concrete truthy non-callable value. -/
theorem c7_callback_validation_witness :
    ((affineWidgetInit (9, 2) ⟨true, false⟩).raised =
        some ConstructError.typeErrorCallback ↔
      ((⟨true, false⟩ : CallbackValue).truthy &&
        !(⟨true, false⟩ : CallbackValue).is_callable) = true) :=
  c7_callback_validation (9, 2) ⟨true, false⟩

/-- C8 (amended): the code has no degenerate-geometry guard. Even when the
ray-plane denominator `dot(planeNormal, rayDir)` is zero, a move event during a
translation drag still assigns a freshly computed matrix to the target — in
this real-number embedding the unguarded division contributes the junk value 0,
in floating point the same unguarded expression yields non-finite values — and
it does not skip the update or signal "no intersection"; the non-matrix state
keeps its prior values and the handler returns normally, so subsequent events
are still processed. -/
theorem c8_no_degenerate_guard (s : WidgetState) (ev : MoveEvent) (i : Fin 3)
    (hp : s.pressing_down = true)
    (hs : s.selected_actor = some (Handle.arrow i))
    (hdeg : dot3 (AXES (INDEX_MAPPER i)) ev.view_vec = 0) :
    ∃ s', move_callback s ev = some s' ∧
      s'.user_matrix (Fin.castSucc i) 3 =
        s.cached_matrix (Fin.castSucc i) 3 + (ev.proj_point i - s.init_position i) ∧
      s'.pressing_down = s.pressing_down ∧
      s'.selected_actor = s.selected_actor ∧
      s'.cached_matrix = s.cached_matrix ∧
      s'.init_position = s.init_position := by
  refine ⟨_, move_callback_arrow s ev i hp hs, ?_, rfl, rfl, rfl, rfl⟩
  simp [get_world_coord_trans, ray_plane_intersection, hdeg]

/-- Witness for C8 at the concrete degenerate event `degenerateEvent`. -/
theorem c8_no_degenerate_guard_witness :
    draggingState.pressing_down = true ∧
    dot3 (AXES (INDEX_MAPPER 0)) degenerateEvent.view_vec = 0 ∧
    ∃ s', move_callback draggingState degenerateEvent = some s' ∧
      s'.cached_matrix = draggingState.cached_matrix :=
  ⟨rfl, by norm_num [dot3, AXES, INDEX_MAPPER, degenerateEvent, Fin.ext_iff], by
    obtain ⟨s', h1, _, _, _, h5, _⟩ :=
      c8_no_degenerate_guard draggingState degenerateEvent 0 rfl rfl
        (by norm_num [dot3, AXES, INDEX_MAPPER, degenerateEvent, Fin.ext_iff])
    exact ⟨s', h1, h5⟩⟩

/-- C8 counterexample: at a concrete degenerate move event (view direction
lying inside the projection plane, denominator exactly 0), the move event does
NOT keep the target's prior matrix: entry (0, 3) changes from 0 to 5, so the
event is not handled as a recoverable no-op. -/
theorem c8_degenerate_not_noop :
    dot3 (AXES (INDEX_MAPPER 0)) degenerateEvent.view_vec = 0 ∧
    draggingState.user_matrix (Fin.castSucc 0) 3 = 0 ∧
    Option.map (fun t => t.user_matrix (Fin.castSucc 0) 3)
        (move_callback draggingState degenerateEvent) = some 5 := by
  refine ⟨by norm_num [dot3, AXES, INDEX_MAPPER, degenerateEvent, Fin.ext_iff], ?_, ?_⟩
  · rw [show draggingState.user_matrix = 1 from rfl, Matrix.one_apply_ne (by decide)]
  · rw [move_callback_arrow draggingState degenerateEvent 0 rfl rfl]
    simp only [Option.map_some']
    norm_num [draggingState, baseState, degenerateEvent, get_world_coord_trans,
      ray_plane_intersection, Matrix.one_apply, dot3, AXES, INDEX_MAPPER, Fin.ext_iff]
    decide

/-- C9: hovering cannot mutate the transform. For every sequence of mouse-move
events processed while not pressing, the target's matrix, the cached matrix,
the drag flag, the initial pick position and the origin after the sequence
equal their values before it (in particular the matrix stays the identity if it
started as the identity); only handle colours and the hover selection change. -/
theorem c9_hover_preserves_matrix (s : WidgetState) (evs : List MoveEvent)
    (hp : s.pressing_down = false) :
    ∃ s', processMoves s evs = some s' ∧
      s'.user_matrix = s.user_matrix ∧
      s'.cached_matrix = s.cached_matrix ∧
      s'.pressing_down = false ∧
      s'.init_position = s.init_position ∧
      s'.origin = s.origin := by
  induction evs generalizing s with
  | nil => exact ⟨s, rfl, rfl, rfl, hp, rfl, rfl⟩
  | cons ev evs ih =>
      obtain ⟨t, ht, h1, h2, h3, h4, h5, _⟩ := move_not_pressing_fields s ev hp
      obtain ⟨u, hu, g1, g2, g3, g4, g5⟩ := ih t h3
      refine ⟨u, ?_, g1.trans h1, g2.trans h2, g3, g4.trans h4, g5.trans h5⟩
      simp [processMoves, ht, hu]

/-- Witness for C9: a concrete hover sequence from the idle state. -/
theorem c9_hover_preserves_matrix_witness :
    hoverState.pressing_down = false ∧
    ∃ s', processMoves hoverState [dragEventA, degenerateEvent] = some s' ∧
      s'.user_matrix = hoverState.user_matrix :=
  ⟨rfl, by
    obtain ⟨s', h1, h2, _⟩ :=
      c9_hover_preserves_matrix hoverState [dragEventA, degenerateEvent] rfl
    exact ⟨s', h1, h2⟩⟩

/-- C10: within a single drag, the live matrix a move event writes is a
function of only the cached matrix, the press-time initial pick point, the
selection, the origin and the current event — not of the intermediate move
events (two mid-drag states agreeing on those produce the same matrix);
processing the same move event twice in a row yields the same state as
processing it once; and the cached matrix is only resynced at release. -/
theorem c10_drag_move_history_free (s t : WidgetState) (ev : MoveEvent)
    (hps : s.pressing_down = true) (hpt : t.pressing_down = true)
    (hsel : s.selected_actor = t.selected_actor)
    (hc : s.cached_matrix = t.cached_matrix)
    (hi : s.init_position = t.init_position)
    (ho : s.origin = t.origin) :
    (∀ s' t', move_callback s ev = some s' → move_callback t ev = some t' →
      s'.user_matrix = t'.user_matrix) ∧
    (∀ s', move_callback s ev = some s' → move_callback s' ev = some s') ∧
    (release_callback s).cached_matrix = s.user_matrix ∧
    (release_callback s).pressing_down = false := by
  refine ⟨?_, ?_, rfl, rfl⟩
  · cases hss : s.selected_actor with
    | none =>
        intro s' t' hs' ht'
        rw [move_callback_none_pressing s ev hps hss] at hs'
        cases hs'
    | some h =>
        cases h with
        | arrow i =>
            have hts : t.selected_actor = some (Handle.arrow i) := by rw [← hsel, hss]
            intro s' t' hs' ht'
            rw [move_callback_arrow s ev i hps hss] at hs'
            rw [move_callback_arrow t ev i hpt hts] at ht'
            obtain rfl := Option.some_inj.mp hs'
            obtain rfl := Option.some_inj.mp ht'
            have hw : get_world_coord_trans s ev i = get_world_coord_trans t ev i := by
              unfold get_world_coord_trans
              rw [ho]
            funext r c
            show (if r = Fin.castSucc i ∧ c = (3 : Fin 4) then
                s.cached_matrix r c +
                  (get_world_coord_trans s ev i i - s.init_position i)
              else s.cached_matrix r c) = _
            rw [hc, hi, hw]
        | circle i =>
            have hts : t.selected_actor = some (Handle.circle i) := by rw [← hsel, hss]
            intro s' t' hs' ht'
            rw [move_callback_circle s ev i hps hss] at hs'
            rw [move_callback_circle t ev i hpt hts] at ht'
            obtain rfl := Option.some_inj.mp hs'
            obtain rfl := Option.some_inj.mp ht'
            have hang : rotationDragAngle s ev i = rotationDragAngle t ev i := by
              simp only [rotationDragAngle, get_world_coord_rot]
              rw [ho, hi]
            show vtkDragRotation i (rotationDragAngle s ev i) s.origin *
                s.cached_matrix = _
            rw [hang, ho, hc]
  · intro s' hs'
    cases hss : s.selected_actor with
    | none =>
        rw [move_callback_none_pressing s ev hps hss] at hs'
        cases hs'
    | some h =>
        cases h with
        | arrow i =>
            rw [move_callback_arrow s ev i hps hss] at hs'
            obtain rfl := Option.some_inj.mp hs'
            exact move_callback_arrow _ ev i hps hss
        | circle i =>
            rw [move_callback_circle s ev i hps hss] at hs'
            obtain rfl := Option.some_inj.mp hs'
            exact move_callback_circle _ ev i hps hss

/-- Witness for C10 at the concrete dragging state and event. -/
theorem c10_drag_move_history_free_witness :
    draggingState.pressing_down = true ∧
    (release_callback draggingState).cached_matrix = draggingState.user_matrix :=
  ⟨rfl, (c10_drag_move_history_free draggingState draggingState dragEventA
    rfl rfl rfl rfl rfl rfl).2.2.1⟩

end AffineWidget
